import Mathlib

/-!
Verification of the prompt-composition logic in
src/study-planner/backend/gemini_client.py.

The file has two units of behavior:
  * perform_web_search: queries the DuckDuckGo provider, drops malformed
    entries, and returns normalized results (or [] on any provider failure);
  * GeminiClient.generate_response: detects a search trigger prefix on the
    user input, optionally augments the prompt with formatted search results,
    and sends the (possibly composed) message to the chat session, converting
    every exception into a fixed apology string.

External collaborators (the duckduckgo_search library and the Gemini chat
session) are modelled as function-valued parameters returning Except, where
Except.error models a raised Python exception. Calls made by
generate_response to the search collaborator and to the session are recorded
in an observation record so that claims about "no model call" and "message
sent unmodified" are statable.
-/

set_option maxRecDepth 8192

namespace GeminiClientModel

/-- Python str.startswith(pre): pre is a prefix of s, compared on the
character sequence. -/
def startswith (s pre : String) : Bool :=
  pre.data.isPrefixOf s.data

/-- Python str.strip(): remove leading and trailing whitespace characters. -/
def strip (s : String) : String :=
  ⟨((s.data.dropWhile Char.isWhitespace).reverse.dropWhile Char.isWhitespace).reverse⟩

/-- Python str.lower(): map every character to lower case. -/
def lower (s : String) : String :=
  ⟨s.data.map Char.toLower⟩

/-- Everything after the first occurrence of sep ([] when sep is absent). -/
def rest_after_first (sep : Char) : List Char → List Char
  | [] => []
  | c :: cs => if c = sep then cs else rest_after_first sep cs

/-- Python text.split(sep, 1)[1] for a one-character separator: the remainder
of text after the first occurrence of sep. The Python indexing [1] raises
when sep is absent; both call sites in generate_response are guarded by a
startswith check that guarantees sep occurs, so the total model agrees with
the source wherever the source reaches this expression. -/
def split_rest (s : String) (sep : Char) : String :=
  ⟨rest_after_first sep s.data⟩

/-- One raw entry yielded by the provider iterator ddgs.text(...): either not
a dict (skipped by the isinstance check, line 22) or a dict whose title,
href, and body keys may each be absent. -/
inductive RawEntry where
  | notDict : RawEntry
  | dict (title href body : Option String) : RawEntry
deriving DecidableEq

/-- A normalized search result as appended by perform_web_search
(lines 28-32): the three string fields title, href, body. -/
structure SearchResult where
  title : String
  href : String
  body : String
deriving DecidableEq

/-- The loop body of perform_web_search (lines 21-32) for one provider
entry: skip non-dicts, default each missing field to "" (Python
result.get(k) or ""), and keep the entry only when both title and href are
non-empty (Python: if title and href). -/
def toSearchResult : RawEntry → Option SearchResult
  | RawEntry.notDict => none
  | RawEntry.dict t h b =>
    let title := t.getD ""
    let href := h.getD ""
    let body := b.getD ""
    if title ≠ "" ∧ href ≠ "" then some ⟨title, href, body⟩ else none

/-- The external DuckDuckGo provider: for a query it either raises
(Except.error) or produces a stream of raw entries. -/
abbrev Provider := String → Except String (List RawEntry)

/-- Model of the external library call ddgs.text(query, max_results=n)
(line 20): the duckduckgo_search library yields at most n entries of the
provider stream. The library is an external collaborator outside this
repository; yielding a n-entry cap of the provider stream is its documented
contract. -/
def ddgs_text (p : Provider) (query : String) (max_results : Nat) :
    Except String (List RawEntry) :=
  (p query).map (fun stream => stream.take max_results)

/-- perform_web_search (lines 11-36). The Python default for max_results
is 6; the only call site in this repository passes 6 explicitly. Any
exception raised inside the with-block (modelled by Except.error from the
provider) is caught and the whole call returns []. -/
def perform_web_search (p : Provider) (query : String) (max_results : Nat) :
    List SearchResult :=
  match ddgs_text p query max_results with
  | Except.error _ => []
  | Except.ok entries => entries.filterMap toSearchResult

/-- The chat session handle: chat.send_message(m).text, returning the reply
text or raising (Except.error). -/
abbrev Session := String → Except String String

/-- GeminiClient state after __init__: self.chat is None when configuration
failed (lines 40-47). -/
structure GeminiClient where
  chat : Option Session

/-- Observations made during one generate_response call: the (query,
max_results) arguments of each perform_web_search invocation and each
message passed to chat.send_message, in order. -/
structure Obs where
  searched : List (String × Nat)
  sent : List String
deriving DecidableEq

/-- The value returned by generate_response together with the observations
of the call. -/
structure RespResult where
  output : String
  obs : Obs
deriving DecidableEq

/-- Trigger detection (lines 61-69): lower = text.strip().lower(); matching
is done on lower, while the extracted query is computed from the original
text (so it preserves the original casing) and then stripped. Returns the
value of the Python variable search_query, with None modelled as none. -/
def detect_trigger (text : String) : Option String :=
  let low := lower (strip text)
  if startswith low "search:" then some (strip (split_rest text ':'))
  else if startswith low "/search " then some (strip (split_rest text ' '))
  else none

/-- One numbered reference line (line 79):
the f-string "[{idx}] {item[title]} —  {item[href]}\n{item[body]}", where
idx is 1-based. Note the source has an em dash followed by two spaces. -/
def ref_line (idx : Nat) (item : SearchResult) : String :=
  "[" ++ toString idx ++ "] " ++ item.title ++ " —  " ++ item.href ++ "\n" ++ item.body

/-- Lines 77-79: for idx, item in enumerate(web_results, start=1). -/
def refs_lines (results : List SearchResult) : List String :=
  results.enum.map (fun pr => ref_line (pr.1 + 1) pr.2)

/-- Line 80: refs_block = "\n\n".join(refs_lines). -/
def refs_block (results : List SearchResult) : String :=
  String.intercalate "\n\n" (refs_lines results)

/-- Lines 82-85: the fixed system prompt (two adjacent Python string
literals concatenated). -/
def system_prompt : String :=
  "You are an AI research assistant. Use the provided web search results to answer the user query. Synthesize concisely, cite sources inline like [1], [2] where relevant, and include a brief summary."

/-- Lines 86-90: the composed message with its three labeled segments in
fixed order: system instruction, extracted user query, references block. -/
def composed_message (q : String) (results : List SearchResult) : String :=
  "<system>\n" ++ system_prompt ++ "\n</system>\n" ++
  "<user_query>\n" ++ q ++ "\n</user_query>\n" ++
  "<web_results>\n" ++ refs_block results ++ "\n</web_results>"

/-- Lines 94-96, the default chat branch: send the raw text to the session
and return response.text; a raise propagates (as Except.error) carrying the
observations made so far. -/
def plain_chat (send : Session) (text : String) : Except (String × Obs) RespResult :=
  match send text with
  | Except.ok t => Except.ok ⟨t, ⟨[], [text]⟩⟩
  | Except.error e => Except.error (e, ⟨[], [text]⟩)

/-- The try-block body of generate_response (lines 60-96). Except.error
models a Python exception propagating out of the try block, paired with the
observations made before the raise. Python's "if search_query:" is true only
for a non-None, non-empty string, so some "" falls through to the default
chat branch exactly like None. -/
def generate_response_try (p : Provider) (send : Session) (user_input : String) :
    Except (String × Obs) RespResult :=
  let text := user_input
  match detect_trigger text with
  | some q =>
    if q = "" then plain_chat send text
    else
      let web_results := perform_web_search p q 6
      if web_results = [] then
        Except.ok ⟨"I could not retrieve web results right now. Please try again.",
          ⟨[(q, 6)], []⟩⟩
      else
        let composed := composed_message q web_results
        match send composed with
        | Except.ok t => Except.ok ⟨t, ⟨[(q, 6)], [composed]⟩⟩
        | Except.error e => Except.error (e, ⟨[(q, 6)], [composed]⟩)
  | none => plain_chat send text

/-- generate_response (lines 49-99). The not-configured check precedes the
try block; the except clause converts any exception raised inside the try
block into the fixed apology string. Python's "user_input or empty" is the
identity on values of type str, so text is user_input itself. The function
is total: no exception escapes to the caller, by construction. -/
def generate_response (p : Provider) (client : GeminiClient) (user_input : String) :
    RespResult :=
  match client.chat with
  | none => ⟨"AI service is not configured correctly.", ⟨[], []⟩⟩
  | some send =>
    match generate_response_try p send user_input with
    | Except.ok r => r
    | Except.error pr =>
      ⟨"I'm sorry, I encountered an error processing your request.", pr.2⟩

/-! Concrete collaborators used to exercise the theorems on closed inputs. -/

/-- A provider that succeeds with an empty stream. -/
def pEmpty : Provider := fun _ => Except.ok []

/-- A provider whose call raises. -/
def pFail : Provider := fun _ => Except.error "network down"

/-- A provider entry with all three fields present. -/
def goodEntry (t h b : String) : RawEntry :=
  RawEntry.dict (some t) (some h) (some b)

/-- A provider stream mixing malformed and well-formed entries. -/
def mixedStream : List RawEntry :=
  [RawEntry.notDict, goodEntry "T1" "H1" "B1",
   RawEntry.dict (some "NoLink") none (some "x"),
   goodEntry "T2" "H2" "B2", goodEntry "T3" "H3" "B3"]

/-- A provider that succeeds with mixedStream. -/
def pMixed : Provider := fun _ => Except.ok mixedStream

/-- A session that replies successfully. -/
def sendOk : Session := fun _ => Except.ok "model reply"

/-- A session whose send raises. -/
def sendFail : Session := fun _ => Except.error "transport error"

/-- A provider with a single well-formed entry. -/
def pOne : Provider := fun _ => Except.ok [goodEntry "T" "H" "B"]

/-- The three well-formed results of mixedStream, in provider order. -/
def rsThree : List SearchResult :=
  [⟨"T1", "H1", "B1"⟩, ⟨"T2", "H2", "B2"⟩, ⟨"T3", "H3", "B3"⟩]

/-! Definitions written from the specification's words, for comparison with
the source-derived composer (refinement check for the reference-block
format). -/

/-- Modelled from the spec: one reference line as the specification states
it, "[n] <title> — <link>" then a newline then the snippet, with a SINGLE
space on each side of the em dash. -/
def ref_line_spec (idx : Nat) (item : SearchResult) : String :=
  "[" ++ toString idx ++ "] " ++ item.title ++ " — " ++ item.href ++ "\n" ++ item.body

/-- Modelled from the spec: the numbered reference lines, 1-based, in input
order. -/
def refs_lines_spec (results : List SearchResult) : List String :=
  results.enum.map (fun pr => ref_line_spec (pr.1 + 1) pr.2)

/-- Modelled from the spec: the reference lines joined by blank lines. -/
def refs_block_spec (results : List SearchResult) : String :=
  String.intercalate "\n\n" (refs_lines_spec results)

/-- Modelled from the spec: the composed message with the three labeled
segments in fixed order, using the specification's reference-line format. -/
def composed_message_spec (q : String) (results : List SearchResult) : String :=
  "<system>\n" ++ system_prompt ++ "\n</system>\n" ++
  "<user_query>\n" ++ q ++ "\n</user_query>\n" ++
  "<web_results>\n" ++ refs_block_spec results ++ "\n</web_results>"

/-! Theorems. -/

/-- The two trigger prefixes are mutually exclusive: a string starting with
"/search " cannot start with "search:". -/
theorem startswith_slash_imp_not_colon (s : String)
    (h : startswith s "/search " = true) : startswith s "search:" = false := by
  unfold startswith at h ⊢
  have h8 : ("/search ").data = ['/', 's', 'e', 'a', 'r', 'c', 'h', ' '] := rfl
  have h7 : ("search:").data = ['s', 'e', 'a', 'r', 'c', 'h', ':'] := rfl
  rw [h8] at h
  rw [h7]
  cases hd : s.data with
  | nil => rw [hd] at h; simp [List.isPrefixOf] at h
  | cons c cs =>
    rw [hd] at h
    simp only [List.isPrefixOf, Bool.and_eq_true, beq_iff_eq] at h
    simp only [List.isPrefixOf, Bool.and_eq_false_iff]
    left
    simp [h.1.symm]

/-- C2: trigger matching is performed on the trimmed, lower-cased input; a
"search:" match extracts the remainder of the original input after the first
colon, trimmed, and a "/search " match extracts the remainder of the
original input after the first space, trimmed. Extraction reads the original
text, so the original casing is preserved. -/
theorem c2_trigger_matching (text : String) :
    (startswith (lower (strip text)) "search:" = true →
      detect_trigger text = some (strip (split_rest text ':'))) ∧
    (startswith (lower (strip text)) "/search " = true →
      detect_trigger text = some (strip (split_rest text ' '))) := by
  constructor
  · intro h
    simp [detect_trigger, h]
  · intro h
    have h2 := startswith_slash_imp_not_colon (lower (strip text)) h
    simp [detect_trigger, h, h2]

/-- Witness for C2 at two concrete inputs, one per trigger; the extracted
query keeps the original casing ("CaTs", "DoGs"). -/
theorem c2_witness :
    startswith (lower (strip " SEARCH: CaTs ")) "search:" = true ∧
    detect_trigger " SEARCH: CaTs " = some (strip (split_rest " SEARCH: CaTs " ':')) ∧
    startswith (lower (strip "/Search DoGs")) "/search " = true ∧
    detect_trigger "/Search DoGs" = some (strip (split_rest "/Search DoGs" ' ')) :=
  ⟨by decide, (c2_trigger_matching " SEARCH: CaTs ").1 (by decide), by decide,
    (c2_trigger_matching "/Search DoGs").2 (by decide)⟩

/-- C3: generate_response is a total function of its inputs (no exception
escapes to the caller, by construction of the model), and every exception
raised inside the try block — composing or sending — is converted to the
fixed apology string. -/
theorem c3_exceptions_caught (p : Provider) (client : GeminiClient)
    (send : Session) (input e : String) (obs : Obs)
    (hchat : client.chat = some send)
    (hraise : generate_response_try p send input = Except.error (e, obs)) :
    generate_response p client input =
      ⟨"I'm sorry, I encountered an error processing your request.", obs⟩ := by
  simp [generate_response, hchat, hraise]

/-- Witness for C3: a session whose send raises makes the call return the
fixed apology. -/
theorem c3_witness :
    (GeminiClient.mk (some sendFail)).chat = some sendFail ∧
    generate_response_try pEmpty sendFail "hi" =
      Except.error ("transport error", ⟨[], ["hi"]⟩) ∧
    generate_response pEmpty ⟨some sendFail⟩ "hi" =
      ⟨"I'm sorry, I encountered an error processing your request.", ⟨[], ["hi"]⟩⟩ :=
  ⟨rfl, rfl,
    c3_exceptions_caught pEmpty ⟨some sendFail⟩ sendFail "hi" "transport error"
      ⟨[], ["hi"]⟩ rfl rfl⟩

/-- C4: with no session handle (chat is None), every call returns the fixed
not-configured string, and neither the search collaborator nor the session
is ever invoked (the observation record stays empty, so no network I/O is
attempted). -/
theorem c4_not_configured (p : Provider) (input : String) :
    generate_response p ⟨none⟩ input =
      ⟨"AI service is not configured correctly.", ⟨[], []⟩⟩ := rfl

/-- C8: perform_web_search is a total function of its inputs (it never
raises, by construction of the model), and any provider failure makes it
return the empty list. -/
theorem c8_provider_failure_empty (p : Provider) (query : String) (n : Nat)
    (e : String) (h : p query = Except.error e) :
    perform_web_search p query n = [] := by
  simp [perform_web_search, ddgs_text, h, Except.map]

/-- Witness for C8: a raising provider yields the empty result list. -/
theorem c8_witness :
    pFail "llamas" = Except.error "network down" ∧
    perform_web_search pFail "llamas" 6 = [] :=
  ⟨rfl, c8_provider_failure_empty pFail "llamas" 6 "network down" rfl⟩

/-- C1: when the trigger is detected with a non-empty extracted query and
the search collaborator returns the empty sequence, generate_response
returns exactly the fixed could-not-retrieve message and sends no message to
the model session (the sent observation list is empty; the search
collaborator was invoked once with the query and cap 6). -/
theorem c1_empty_search_skips_model (p : Provider) (send : Session)
    (input q : String) (hq : detect_trigger input = some q) (hne : q ≠ "")
    (hempty : perform_web_search p q 6 = []) :
    generate_response p ⟨some send⟩ input =
      ⟨"I could not retrieve web results right now. Please try again.",
        ⟨[(q, 6)], []⟩⟩ := by
  simp [generate_response, generate_response_try, hq, hne, hempty]

/-- Witness for C1: a provider with an empty stream makes a triggered call
return the fixed message without any model call. -/
theorem c1_witness :
    detect_trigger "search: cats" = some "cats" ∧ ("cats" : String) ≠ "" ∧
    perform_web_search pEmpty "cats" 6 = [] ∧
    generate_response pEmpty ⟨some sendOk⟩ "search: cats" =
      ⟨"I could not retrieve web results right now. Please try again.",
        ⟨[("cats", 6)], []⟩⟩ :=
  ⟨rfl, by decide, rfl,
    c1_empty_search_skips_model pEmpty sendOk "search: cats" "cats" rfl (by decide) rfl⟩

/-- C5: when the trimmed lower-cased input matches neither trigger prefix,
the raw input is the one message sent to the session, unmodified, and the
search collaborator is not invoked. -/
theorem c5_plain_input_unmodified (p : Provider) (send : Session) (input : String)
    (h1 : startswith (lower (strip input)) "search:" = false)
    (h2 : startswith (lower (strip input)) "/search " = false) :
    (generate_response p ⟨some send⟩ input).obs = ⟨[], [input]⟩ := by
  have hd : detect_trigger input = none := by simp [detect_trigger, h1, h2]
  cases hs : send input with
  | ok t => simp [generate_response, generate_response_try, plain_chat, hd, hs]
  | error e => simp [generate_response, generate_response_try, plain_chat, hd, hs]

/-- Witness for C5 at a concrete non-trigger input. -/
theorem c5_witness :
    startswith (lower (strip "hello there")) "search:" = false ∧
    startswith (lower (strip "hello there")) "/search " = false ∧
    (generate_response pEmpty ⟨some sendOk⟩ "hello there").obs = ⟨[], ["hello there"]⟩ :=
  ⟨by decide, by decide,
    c5_plain_input_unmodified pEmpty sendOk "hello there" (by decide) (by decide)⟩

/-- C9: when a trigger matches but the extracted query strips to the empty
string, the call takes the plain branch: the raw input is sent unmodified,
the search collaborator is never invoked, and the result is the session's
reply (or the generic error apology if the send raises) — never the
empty-results message. -/
theorem c9_empty_query_plain_branch (p : Provider) (send : Session) (input : String)
    (hq : detect_trigger input = some "") :
    generate_response p ⟨some send⟩ input =
      (match send input with
       | Except.ok t => (⟨t, ⟨[], [input]⟩⟩ : RespResult)
       | Except.error _ =>
         ⟨"I'm sorry, I encountered an error processing your request.",
           ⟨[], [input]⟩⟩) := by
  cases hs : send input with
  | ok t => simp [generate_response, generate_response_try, plain_chat, hq, hs]
  | error e => simp [generate_response, generate_response_try, plain_chat, hq, hs]

/-- Witness for C9: input "search:" matches the trigger with an empty
remainder and is sent to the session as-is. -/
theorem c9_witness :
    detect_trigger "search:" = some "" ∧
    generate_response pEmpty ⟨some sendOk⟩ "search:" =
      (match sendOk "search:" with
       | Except.ok t => (⟨t, ⟨[], ["search:"]⟩⟩ : RespResult)
       | Except.error _ =>
         ⟨"I'm sorry, I encountered an error processing your request.",
           ⟨[], ["search:"]⟩⟩) :=
  ⟨rfl, c9_empty_query_plain_branch pEmpty sendOk "search:" rfl⟩

/-- On a successful provider call, perform_web_search filters the capped
stream through the loop body. -/
theorem perform_web_search_ok (p : Provider) (query : String) (n : Nat)
    (stream : List RawEntry) (h : p query = Except.ok stream) :
    perform_web_search p query n = (stream.take n).filterMap toSearchResult := by
  simp [perform_web_search, ddgs_text, h, Except.map]

/-- On a raising provider call, perform_web_search returns []. -/
theorem perform_web_search_error (p : Provider) (query : String) (n : Nat)
    (e : String) (h : p query = Except.error e) :
    perform_web_search p query n = [] := by
  simp [perform_web_search, ddgs_text, h, Except.map]

/-- An entry kept by the loop body has a non-empty title and href. -/
theorem toSearchResult_fields (a : RawEntry) (r : SearchResult)
    (h : toSearchResult a = some r) : r.title ≠ "" ∧ r.href ≠ "" := by
  cases a with
  | notDict => simp [toSearchResult] at h
  | dict ot oh ob =>
    simp only [toSearchResult] at h
    split at h
    · rename_i hcond
      cases h
      exact hcond
    · cases h

/-- C6: for every query and provider stream, perform_web_search drops every
entry missing a title or a link, returns at most max_results entries, and
preserves the provider's return order among the kept entries (the result is
an order-preserving sublist of the fully normalized provider stream). -/
theorem c6_filter_cap_order (p : Provider) (query : String) (n : Nat) :
    (∀ r ∈ perform_web_search p query n, r.title ≠ "" ∧ r.href ≠ "") ∧
    (perform_web_search p query n).length ≤ n ∧
    (∀ stream, p query = Except.ok stream →
      List.Sublist (perform_web_search p query n)
        (stream.filterMap toSearchResult)) := by
  refine ⟨?_, ?_, ?_⟩
  · intro r hr
    cases hpq : p query with
    | error e =>
      rw [perform_web_search_error p query n e hpq] at hr
      simp at hr
    | ok stream =>
      rw [perform_web_search_ok p query n stream hpq] at hr
      rcases List.mem_filterMap.mp hr with ⟨a, _, ha⟩
      exact toSearchResult_fields a r ha
  · cases hpq : p query with
    | error e => rw [perform_web_search_error p query n e hpq]; simp
    | ok stream =>
      rw [perform_web_search_ok p query n stream hpq]
      exact le_trans (List.length_filterMap_le _ _) (List.length_take_le n stream)
  · intro stream hpq
    rw [perform_web_search_ok p query n stream hpq]
    exact List.Sublist.filterMap toSearchResult (List.take_sublist n stream)

/-- Witness for C6 on a mixed provider stream with cap 2: the kept entry is
well-formed, the count is capped, and the result is a sublist of the full
normalized stream. -/
theorem c6_witness :
    (⟨"T1", "H1", "B1"⟩ : SearchResult) ∈ perform_web_search pMixed "q" 2 ∧
    ("T1" : String) ≠ "" ∧ ("H1" : String) ≠ "" ∧
    (perform_web_search pMixed "q" 2).length ≤ 2 ∧
    pMixed "q" = Except.ok mixedStream ∧
    List.Sublist (perform_web_search pMixed "q" 2)
      (mixedStream.filterMap toSearchResult) :=
  ⟨by decide,
   ((c6_filter_cap_order pMixed "q" 2).1 ⟨"T1", "H1", "B1"⟩ (by decide)).1,
   ((c6_filter_cap_order pMixed "q" 2).1 ⟨"T1", "H1", "B1"⟩ (by decide)).2,
   (c6_filter_cap_order pMixed "q" 2).2.1,
   rfl,
   (c6_filter_cap_order pMixed "q" 2).2.2 mixedStream rfl⟩

/-- C10: every element of a perform_web_search result has all three fields
title, href, body present as strings (enforced by the SearchResult record
the loop constructs, so the composer's item accesses are total) with title
and href non-empty. -/
theorem c10_results_well_formed (p : Provider) (query : String) (n : Nat)
    (r : SearchResult) (h : r ∈ perform_web_search p query n) :
    r.title ≠ "" ∧ r.href ≠ "" := by
  cases hpq : p query with
  | error e =>
    rw [perform_web_search_error p query n e hpq] at h
    simp at h
  | ok stream =>
    rw [perform_web_search_ok p query n stream hpq] at h
    rcases List.mem_filterMap.mp h with ⟨a, _, ha⟩
    exact toSearchResult_fields a r ha

/-- Witness for C10 at a concrete result element. -/
theorem c10_witness :
    (⟨"T2", "H2", "B2"⟩ : SearchResult) ∈ perform_web_search pMixed "quokka" 6 ∧
    ("T2" : String) ≠ "" ∧ ("H2" : String) ≠ "" :=
  ⟨by decide,
   (c10_results_well_formed pMixed "quokka" 6 ⟨"T2", "H2", "B2"⟩ (by decide)).1,
   (c10_results_well_formed pMixed "quokka" 6 ⟨"T2", "H2", "B2"⟩ (by decide)).2⟩

/-- The i-th (0-based) reference line is the (i+1)-numbered block built from
the i-th search result, so the lines are numbered 1..n in input order. -/
theorem refs_lines_entry (rs : List SearchResult) (i : Nat) (h : i < rs.length) :
    (refs_lines rs)[i]? =
      some ("[" ++ toString (i + 1) ++ "] " ++ (rs.get ⟨i, h⟩).title ++ " —  " ++
        (rs.get ⟨i, h⟩).href ++ "\n" ++ (rs.get ⟨i, h⟩).body) := by
  simp [refs_lines, ref_line, List.enum, List.getElem?_eq_getElem h]

/-- C7 counterexample: the claim's entry format "[n] <title> — <link>" (one
space after the em dash) does not match the source, which emits an em dash
followed by two spaces (line 79 of gemini_client.py). At one concrete
result, the message actually sent to the session differs from the
spec-formatted composed message. -/
theorem c7_counterexample :
    (generate_response pOne ⟨some sendOk⟩ "search: cats").obs.sent =
      [composed_message "cats" [⟨"T", "H", "B"⟩]] ∧
    composed_message "cats" [⟨"T", "H", "B"⟩] ≠
      composed_message_spec "cats" [⟨"T", "H", "B"⟩] ∧
    ref_line 1 ⟨"T", "H", "B"⟩ = "[1] T —  H\nB" ∧
    ref_line_spec 1 ⟨"T", "H", "B"⟩ = "[1] T — H\nB" :=
  ⟨by decide, by decide, rfl, rfl⟩

/-- C7 (amended): given n search results (n ≥ 1), the message sent to the
session is the composed message with exactly three labeled segments in fixed
order — system-role instruction, extracted query, references block — where
the references block has exactly n entries numbered 1..n in input order,
each formatted as "[n] <title> —  <link>" (em dash followed by two spaces,
as in the source) then a newline and the snippet, and the entries are joined
by blank lines. -/
theorem c7_composed_structure (p : Provider) (send : Session) (input q : String)
    (rs : List SearchResult)
    (hq : detect_trigger input = some q) (hne : q ≠ "")
    (hres : perform_web_search p q 6 = rs) (hnil : rs ≠ []) :
    (generate_response p ⟨some send⟩ input).obs.sent = [composed_message q rs] ∧
    composed_message q rs =
      "<system>\n" ++ system_prompt ++ "\n</system>\n" ++ "<user_query>\n" ++ q ++
        "\n</user_query>\n" ++ "<web_results>\n" ++
        String.intercalate "\n\n" (refs_lines rs) ++ "\n</web_results>" ∧
    (refs_lines rs).length = rs.length ∧
    (∀ i (h : i < rs.length),
      (refs_lines rs)[i]? =
        some ("[" ++ toString (i + 1) ++ "] " ++ (rs.get ⟨i, h⟩).title ++ " —  " ++
          (rs.get ⟨i, h⟩).href ++ "\n" ++ (rs.get ⟨i, h⟩).body)) := by
  refine ⟨?_, rfl, ?_, ?_⟩
  · cases hs : send (composed_message q rs) with
    | ok t => simp [generate_response, generate_response_try, hq, hne, hres, hnil, hs]
    | error e => simp [generate_response, generate_response_try, hq, hne, hres, hnil, hs]
  · simp [refs_lines]
  · intro i h
    exact refs_lines_entry rs i h

/-- Witness for the amended C7 with three search results: the references
block has exactly the three numbered entries in input order. -/
theorem c7_witness :
    detect_trigger "search: cats" = some "cats" ∧ ("cats" : String) ≠ "" ∧
    perform_web_search pMixed "cats" 6 = rsThree ∧ rsThree ≠ [] ∧
    (generate_response pMixed ⟨some sendOk⟩ "search: cats").obs.sent =
      [composed_message "cats" rsThree] ∧
    (refs_lines rsThree).length = rsThree.length ∧
    (refs_lines rsThree)[0]? = some "[1] T1 —  H1\nB1" ∧
    (refs_lines rsThree)[1]? = some "[2] T2 —  H2\nB2" ∧
    (refs_lines rsThree)[2]? = some "[3] T3 —  H3\nB3" :=
  ⟨rfl, by decide, rfl, by decide,
   (c7_composed_structure pMixed sendOk "search: cats" "cats" rsThree rfl (by decide)
     rfl (by decide)).1,
   (c7_composed_structure pMixed sendOk "search: cats" "cats" rsThree rfl (by decide)
     rfl (by decide)).2.2.1,
   (c7_composed_structure pMixed sendOk "search: cats" "cats" rsThree rfl (by decide)
     rfl (by decide)).2.2.2 0 (by decide),
   (c7_composed_structure pMixed sendOk "search: cats" "cats" rsThree rfl (by decide)
     rfl (by decide)).2.2.2 1 (by decide),
   (c7_composed_structure pMixed sendOk "search: cats" "cats" rsThree rfl (by decide)
     rfl (by decide)).2.2.2 2 (by decide)⟩

end GeminiClientModel
